import Mathlib

/-!
# The Python adapter of the n-dimensional histogram

A shallow embedding of `src/python/nhistogram.cpp`: the four entry points
`nhistogram_init`, `nhistogram_array_interface`, `nhistogram_fill` and
`nhistogram_getitem`.

* The histogram engine (`boost/histogram/nhistogram.hpp`) and the libraries under
  the adapter (Boost.Python, the CPython and NumPy C APIs) are not part of the
  file; the adapter is embedded over records of their operations
  (`nhistogram`, `Python`), so every theorem holds for each behaviour of them.
* Calls into the engine are recorded in call order next to the result, which
  makes "invokes the engine's fill exactly once" a statement about a list.
* A Python exception set and thrown (`PyErr_SetString` followed by
  `throw_error_already_set`) is the result `Result.raise`; a store past the end
  of one of the two stack buffers of `BOOST_HISTOGRAM_AXIS_LIMIT` entries is the
  result `Result.undefined`.
* Lengths and loop counters are natural numbers: the `unsigned` counters of the
  source hold every length below 2^32, and longer tuples and arrays are outside
  the model.
-/

namespace boost.histogram

/-! ## Results of a call -/

/-- Python exception classes raised by the adapter and by the libraries under it. -/
inductive PyExc
  | TypeError
  | ValueError
  | RuntimeError
  | IndexError
  | OverflowError
  deriving DecidableEq, Repr

/-- A Python exception: its class and its message. -/
structure PyErr where
  exc : PyExc
  msg : String
  deriving DecidableEq, Repr

/-- How a call of an adapter function ends: it returns a value, it throws a Python
exception, or it stores past the end of a fixed stack buffer. -/
inductive Result (α : Type)
  | ok (a : α)
  | raise (e : PyErr)
  | undefined
  deriving DecidableEq, Repr

/-- An exception thrown by a callee passes through the adapter. -/
def Result.ofExcept {α : Type} : Except PyErr α → Result α
  | Except.ok a => Result.ok a
  | Except.error e => Result.raise e

/-! ## Axis classes -/

/-- Modelled from the spec: class `regular_axis` of `boost/histogram/axis.hpp`
(not under src/), "regular (equal-width bins over a range)". -/
structure regular_axis (D : Type) where
  bins : Nat
  lower : D
  upper : D
  deriving DecidableEq, Repr

/-- Modelled from the spec: class `polar_axis` of `boost/histogram/axis.hpp`
(not under src/), "polar (circular/wrapping axis)". -/
structure polar_axis (D : Type) where
  bins : Nat
  start : D
  deriving DecidableEq, Repr

/-- Modelled from the spec: class `variable_axis` of `boost/histogram/axis.hpp`
(not under src/), "variable (explicit bin-edge sequence)". -/
structure variable_axis (D : Type) where
  edges : List D
  deriving DecidableEq, Repr

/-- Modelled from the spec: class `category_axis` of `boost/histogram/axis.hpp`
(not under src/), "category (discrete unordered labels)". -/
structure category_axis where
  labels : List String
  deriving DecidableEq, Repr

/-- Modelled from the spec: class `integer_axis` of `boost/histogram/axis.hpp`
(not under src/), "integer (unit-width integer bins)". -/
structure integer_axis where
  lower : Int
  upper : Int
  deriving DecidableEq, Repr

/-- Modelled from the spec: the element type of `axes_type`, the "tagged union over
{regular, variable, integer, category, polar}" (its declaration is not under src/). -/
inductive axis_type (D : Type)
  | regular (a : regular_axis D)
  | polar (a : polar_axis D)
  | variable (a : variable_axis D)
  | category (a : category_axis)
  | integer (a : integer_axis)
  deriving DecidableEq, Repr

/-! ## The engine and the libraries under the adapter -/

/-- The member functions of class `nhistogram` the adapter calls, over the states `H`
of a histogram object and the values `D` of a C `double`.
`fill` receives the `dim()` doubles the engine reads through the pointer it is given,
`value` is `operator()` on the `dim()` indices it reads (an exception of the engine
reaches Python as an error), `buffer` is the address `data().buffer()` as the integer
the cast to `long long` yields. -/
structure nhistogram (H D : Type) where
  dim : H → Nat
  shape : H → Nat → Nat
  depth : H → Nat
  buffer : H → Int
  fill : H → List D → H
  value : H → List Int → Except PyErr Nat
  sum : H → Nat

/-- A NumPy array as `PyArray_FROM_OTF(o, NPY_DOUBLE, NPY_ARRAY_IN_ARRAY)` returns it:
its extents (`PyArray_DIMS`, of length `PyArray_NDIM`) and its elements, contiguous in
C order. -/
structure PyArrayObject (D : Type) where
  dims : List Nat
  data : List D
  deriving DecidableEq, Repr

/-- The operations of Boost.Python, CPython and NumPy the adapter calls on Python
objects `Obj`.
* `axis_object o`: the C++ axis held by `o` when `o` is an instance of one of the five
  exposed axis classes; `extract<K>(o).check()` holds exactly when it is of class `K`;
* `extract_double`, `extract_int`: `extract<double>(o)`, `extract<int>(o)`;
* `len`, `getitem`: `python::len(o)`, `o[i]`;
* `PyArray_FROM_OTF`: `none` is the null pointer. -/
structure Python (Obj D : Type) where
  axis_object : Obj → Option (axis_type D)
  extract_double : Obj → Except PyErr D
  extract_int : Obj → Except PyErr Int
  len : Obj → Except PyErr Nat
  getitem : Obj → Nat → Except PyErr Obj
  PySequence_Check : Obj → Bool
  PyArray_FROM_OTF : Obj → Option (PyArrayObject D)

/-! ## Values the adapter builds -/

/-- Python values built by the adapter itself. -/
inductive PyValue
  | int (n : Int)
  | bool (b : Bool)
  | str (s : String)
  | tuple (xs : List PyValue)

/-- A Python `dict` with string keys, latest binding first. -/
abbrev PyDict := List (String × PyValue)

/-- The statement `d[key] = v`. -/
def PyDict.setitem (d : PyDict) (key : String) (v : PyValue) : PyDict :=
  (key, v) :: d.filter (fun kv => kv.1 != key)

/-- The expression `d[key]`, `none` when the key is absent. -/
def PyDict.getitem (d : PyDict) (key : String) : Option PyValue :=
  (d.find? (fun kv => kv.1 == key)).map Prod.snd

section Adapter

variable {H D Obj : Type}

/-! ## `nhistogram_array_interface` (lines 51-65) -/

/-- The loop of lines 58-59: `shape.append(self.shape(i))` for `i < self.dim()`. -/
def nhistogram_array_interface.shape (E : nhistogram H D) (self : H) : List PyValue :=
  (List.range (E.dim self)).foldl
    (fun shape i => shape ++ [PyValue.int (E.shape self i)]) []

/-- The property getter `__array_interface__`. -/
def nhistogram_array_interface (E : nhistogram H D) (self : H) : PyDict :=
  let shape := nhistogram_array_interface.shape E self
  let d : PyDict := []
  let d := d.setitem "shape" (PyValue.tuple shape)
  let d := d.setitem "typestr" (PyValue.str ("<u" ++ toString (E.depth self)))
  let d := d.setitem "data" (PyValue.tuple [PyValue.int (E.buffer self), PyValue.bool false])
  d

/-- The property getter `depth` (lines 134-137). -/
def nhistogram_depth (E : nhistogram H D) (self : H) : Nat :=
  E.depth self

/-! ## `nhistogram_init` (lines 18-49)

In the raw entry points the receiver `args[0]` is not part of the list `args`
of the model: `args` holds `args[1]`, ..., `args[nargs-1]`, so `len(args)` of the
source is `args.length + 1`. A keyword dictionary is the list of its items. -/

/-- The constructor call ended: the axis sequences handed to the engine constructor
(`pyinit(axes)`, which reaches the shadowed C++ constructor `init<const axes_type&>`),
in call order, and the histogram constructed or the error. -/
structure InitOutcome (H D : Type) where
  constructed : List (List (axis_type D))
  result : Result H

/-- The check `extract<regular_axis> er(pa); er.check()` and the value `er()`. -/
def extract_regular_axis (py : Python Obj D) (pa : Obj) : Option (regular_axis D) :=
  match py.axis_object pa with
  | some (axis_type.regular a) => some a
  | _ => none

/-- The check `extract<polar_axis> ep(pa); ep.check()` and the value `ep()`. -/
def extract_polar_axis (py : Python Obj D) (pa : Obj) : Option (polar_axis D) :=
  match py.axis_object pa with
  | some (axis_type.polar a) => some a
  | _ => none

/-- The check `extract<variable_axis> ev(pa); ev.check()` and the value `ev()`. -/
def extract_variable_axis (py : Python Obj D) (pa : Obj) : Option (variable_axis D) :=
  match py.axis_object pa with
  | some (axis_type.variable a) => some a
  | _ => none

/-- The check `extract<category_axis> ec(pa); ec.check()` and the value `ec()`. -/
def extract_category_axis (py : Python Obj D) (pa : Obj) : Option category_axis :=
  match py.axis_object pa with
  | some (axis_type.category a) => some a
  | _ => none

/-- The check `extract<integer_axis> ei(pa); ei.check()` and the value `ei()`. -/
def extract_integer_axis (py : Python Obj D) (pa : Obj) : Option integer_axis :=
  match py.axis_object pa with
  | some (axis_type.integer a) => some a
  | _ => none

/-- The loop of lines 33-47 over the arguments still to visit, `axes` being the
sequence pushed so far. -/
def nhistogram_init.loop (py : Python Obj D) :
    List Obj → List (axis_type D) → Except PyErr (List (axis_type D))
  | [], axes => Except.ok axes
  | pa :: rest, axes =>
    match extract_regular_axis py pa with
    | some er => nhistogram_init.loop py rest (axes ++ [axis_type.regular er])
    | none =>
    match extract_polar_axis py pa with
    | some ep => nhistogram_init.loop py rest (axes ++ [axis_type.polar ep])
    | none =>
    match extract_variable_axis py pa with
    | some ev => nhistogram_init.loop py rest (axes ++ [axis_type.variable ev])
    | none =>
    match extract_category_axis py pa with
    | some ec => nhistogram_init.loop py rest (axes ++ [axis_type.category ec])
    | none =>
    match extract_integer_axis py pa with
    | some ei => nhistogram_init.loop py rest (axes ++ [axis_type.integer ei])
    | none => Except.error ⟨PyExc.TypeError, "require an axis object"⟩

/-- The raw constructor `__init__`; `pyinit` is the engine constructor behind
`self.attr("__init__")`. -/
def nhistogram_init (py : Python Obj D) (pyinit : List (axis_type D) → Except PyErr H)
    (args : List Obj) (kwargs : List (String × Obj)) : InitOutcome H D :=
  if !kwargs.isEmpty then
    ⟨[], Result.raise ⟨PyExc.TypeError, "no keyword arguments allowed"⟩⟩
  else
    match nhistogram_init.loop py args [] with
    | Except.error e => ⟨[], Result.raise e⟩
    | Except.ok axes => ⟨[axes], Result.ofExcept (pyinit axes)⟩

/-- Modelled from the spec: the engine constructor `nhistogram(const axes_type&)`
(`boost/histogram/nhistogram.hpp`, not under src/): "Construct from an ordered list of
axis descriptors (error if any descriptor is invalid or the list exceeds the maximum
supported dimension)". `valid` tells the valid descriptors, `make` builds the
histogram of a valid list. -/
def nhistogram_ctor (LIMIT : Nat) (valid : axis_type D → Bool)
    (make : List (axis_type D) → H) (axes : List (axis_type D)) : Except PyErr H :=
  if axes.length > LIMIT then
    Except.error ⟨PyExc.ValueError, "too many axes"⟩
  else if !axes.all valid then
    Except.error ⟨PyExc.ValueError, "invalid axis"⟩
  else
    Except.ok (make axes)

/-! ## `nhistogram_fill` (lines 67-132) -/

/-- The call `fill` ended: the histogram after the call, the value vectors handed to
the engine's `fill` in call order, and the result (`object()` is `()`). -/
structure FillOutcome (H D : Type) where
  self : H
  fills : List (List D)
  result : Result Unit

/-- The statement `self.fill(v)` on the histogram `st.1` with the calls so far `st.2`:
the engine reads its `dim()` values through the pointer `v`, given as the doubles
stored from `v` on. -/
def call_fill (E : nhistogram H D) (st : H × List (List D)) (v : List D) :
    H × List (List D) :=
  let values := v.take (E.dim st.1)
  (E.fill st.1 values, st.2 ++ [values])

/-- The macro `PyArray_GETPTR1(a, i)` on a C-contiguous array of doubles: the address
`i * strides[0]` bytes into the data, that is `i` times the product of the extents
after the first, counted in elements. -/
def PyArray_GETPTR1 (a : PyArrayObject D) (i : Nat) : List D :=
  a.data.drop (i * a.dims.tail.prod)

/-- The loop of lines 105-108 with `dims[0] = n`, then `return object()`. -/
def nhistogram_fill.rows (E : nhistogram H D) (self : H) (a : PyArrayObject D)
    (n : Nat) : FillOutcome H D :=
  let st := (List.range n).foldl
    (fun st i => call_fill E st (PyArray_GETPTR1 a i)) (self, [])
  ⟨st.1, st.2, Result.ok ()⟩

/-- Lines 85-111: the switch on `PyArray_NDIM(a)` and the loop over the rows. -/
def nhistogram_fill.array (E : nhistogram H D) (self : H) (a : PyArrayObject D) :
    FillOutcome H D :=
  match a.dims with
  | [n] =>
    if E.dim self > 1 then
      ⟨self, [], Result.raise ⟨PyExc.ValueError, "array has to be two-dimensional"⟩⟩
    else nhistogram_fill.rows E self a n
  | [n, m] =>
    if E.dim self ≠ m then
      ⟨self, [], Result.raise ⟨PyExc.ValueError, "size of second dimension does not match"⟩⟩
    else nhistogram_fill.rows E self a n
  | _ => ⟨self, [], Result.raise ⟨PyExc.ValueError, "array has wrong dimension"⟩⟩

/-- The loop of lines 128-129 over the arguments still to convert, `v` being the
entries of the buffer `double v[BOOST_HISTOGRAM_AXIS_LIMIT]` stored so far: the next
store goes to `v[v.length]`. -/
def nhistogram_fill.values (py : Python Obj D) (LIMIT : Nat) :
    List Obj → List D → Result (List D)
  | [], v => Result.ok v
  | o :: rest, v =>
    match py.extract_double o with
    | Except.error e => Result.raise e
    | Except.ok x =>
      if v.length < LIMIT then nhistogram_fill.values py LIMIT rest (v ++ [x])
      else Result.undefined

/-- Lines 116-131: the call with one scalar per axis. -/
def nhistogram_fill.scalars (py : Python Obj D) (E : nhistogram H D) (LIMIT : Nat)
    (self : H) (args : List Obj) (kwargs : List (String × Obj)) : FillOutcome H D :=
  let nargs := args.length + 1
  let dim := nargs - 1
  if dim ≠ E.dim self then
    ⟨self, [], Result.raise ⟨PyExc.TypeError, "wrong number of arguments"⟩⟩
  else if !kwargs.isEmpty then
    ⟨self, [], Result.raise ⟨PyExc.TypeError, "no keyword arguments allowed"⟩⟩
  else
    match nhistogram_fill.values py LIMIT args [] with
    | Result.raise e => ⟨self, [], Result.raise e⟩
    | Result.undefined => ⟨self, [], Result.undefined⟩
    | Result.ok v =>
      let st := call_fill E (self, []) v
      ⟨st.1, st.2, Result.ok ()⟩

/-- The raw method `fill`; `USE_NUMPY` tells whether lines 75-113 are compiled in. -/
def nhistogram_fill (py : Python Obj D) (E : nhistogram H D) (LIMIT : Nat)
    (USE_NUMPY : Bool) (self : H) (args : List Obj) (kwargs : List (String × Obj)) :
    FillOutcome H D :=
  let nargs := args.length + 1
  if USE_NUMPY && nargs == 2 then
    match args with
    | [o] =>
      if py.PySequence_Check o then
        match py.PyArray_FROM_OTF o with
        | none =>
          ⟨self, [], Result.raise ⟨PyExc.ValueError, "could not convert sequence into array"⟩⟩
        | some a => nhistogram_fill.array E self a
      else nhistogram_fill.scalars py E LIMIT self args kwargs
    | _ => nhistogram_fill.scalars py E LIMIT self args kwargs
  else nhistogram_fill.scalars py E LIMIT self args kwargs

/-! ## `nhistogram_getitem` (lines 139-157) -/

/-- The call `__getitem__` ended: the index vectors handed to the engine's
`operator()` in call order, and the count returned or the error. -/
structure GetitemOutcome where
  lookups : List (List Int)
  result : Result Nat

/-- The expression `self(idx)`: the engine reads its `dim()` indices through the
pointer `idx`; `self(i)` is the call on the single index `i`. -/
def call_value (E : nhistogram H D) (self : H) (idx : List Int) : GetitemOutcome :=
  let indices := idx.take (E.dim self)
  ⟨[indices], Result.ofExcept (E.value self indices)⟩

/-- The loop of lines 153-154 over the counters `i` still to run, `idx` being the
entries of the buffer `int idx[BOOST_HISTOGRAM_AXIS_LIMIT]` stored so far. -/
def nhistogram_getitem.indices (py : Python Obj D) (LIMIT : Nat) (oidx : Obj) :
    List Nat → List Int → Result (List Int)
  | [], idx => Result.ok idx
  | i :: rest, idx =>
    match py.getitem oidx i with
    | Except.error e => Result.raise e
    | Except.ok o =>
      match py.extract_int o with
      | Except.error e => Result.raise e
      | Except.ok n =>
        if i < LIMIT then nhistogram_getitem.indices py LIMIT oidx rest (idx ++ [n])
        else Result.undefined

/-- The method `__getitem__`. -/
def nhistogram_getitem (py : Python Obj D) (E : nhistogram H D) (LIMIT : Nat)
    (self : H) (oidx : Obj) : GetitemOutcome :=
  if E.dim self == 1 then
    match py.extract_int oidx with
    | Except.error e => ⟨[], Result.raise e⟩
    | Except.ok i => call_value E self [i]
  else
    match py.len oidx with
    | Except.error e => ⟨[], Result.raise e⟩
    | Except.ok dim =>
      if dim ≠ E.dim self then
        ⟨[], Result.raise ⟨PyExc.RuntimeError, "wrong number of arguments"⟩⟩
      else
        match nhistogram_getitem.indices py LIMIT oidx (List.range dim) [] with
        | Result.raise e => ⟨[], Result.raise e⟩
        | Result.undefined => ⟨[], Result.undefined⟩
        | Result.ok idx => call_value E self idx

/-! ## Notions the statements use -/

end Adapter

/-! ## A concrete interpreter and a concrete engine

Python objects with the conversions of Boost.Python and NumPy spelled out on them,
and an engine that keeps the events it was given; the doubles are the rationals. -/

namespace Example

/-- Python objects: `None`, integers, floats, strings, tuples, lists and instances of
the five axis classes. -/
inductive PyObject
  | None
  | int (n : Int)
  | float (x : ℚ)
  | str (s : String)
  | tuple (xs : List PyObject)
  | list (xs : List PyObject)
  | axis (a : axis_type ℚ)

/-- The conversion to a C `double`: floats and integers convert. -/
def PyObject.as_double : PyObject → Except PyErr ℚ
  | PyObject.float x => Except.ok x
  | PyObject.int n => Except.ok n
  | _ => Except.error ⟨PyExc.TypeError, "No registered converter was able to produce a C++ rvalue of type double"⟩

/-- The conversion to a C `int`: integers convert, within the range of `int`. -/
def PyObject.as_int : PyObject → Except PyErr Int
  | PyObject.int n =>
    if -2147483648 ≤ n ∧ n ≤ 2147483647 then Except.ok n
    else Except.error ⟨PyExc.OverflowError, "bad numeric conversion"⟩
  | _ => Except.error ⟨PyExc.TypeError, "No registered converter was able to produce a C++ rvalue of type int"⟩

/-- The items of a tuple or list. -/
def PyObject.items : PyObject → Option (List PyObject)
  | PyObject.tuple xs => some xs
  | PyObject.list xs => some xs
  | _ => none

/-- The doubles of a sequence of numbers. -/
def PyObject.doubles (o : PyObject) : Option (List ℚ) :=
  match o.items with
  | none => none
  | some xs => xs.mapM (fun x => x.as_double.toOption)

/-- The array of a sequence of numbers (one extent) or of a sequence of sequences of
numbers of one length (two extents); other nestings are not converted here. -/
def PyObject.as_array (o : PyObject) : Option (PyArrayObject ℚ) :=
  match o.doubles with
  | some xs => some ⟨[xs.length], xs⟩
  | none =>
    match o.items with
    | none => none
    | some rows =>
      match rows.mapM PyObject.doubles with
      | none => none
      | some [] => none
      | some (r :: rs) =>
        if rs.all (fun r2 => r2.length == r.length) then
          some ⟨[rs.length + 1, r.length], (r :: rs).flatten⟩
        else none

/-- The interpreter on these objects. -/
def python : Python PyObject ℚ where
  axis_object := fun o => match o with
    | PyObject.axis a => some a
    | _ => none
  extract_double := PyObject.as_double
  extract_int := PyObject.as_int
  len := fun o => match o with
    | PyObject.tuple xs => Except.ok xs.length
    | PyObject.list xs => Except.ok xs.length
    | PyObject.str s => Except.ok s.length
    | _ => Except.error ⟨PyExc.TypeError, "object has no len()"⟩
  getitem := fun o i => match o.items with
    | some xs =>
      match xs[i]? with
      | some x => Except.ok x
      | none => Except.error ⟨PyExc.IndexError, "index out of range"⟩
    | none => Except.error ⟨PyExc.TypeError, "object is not subscriptable"⟩
  PySequence_Check := fun o => match o with
    | PyObject.tuple _ => true
    | PyObject.list _ => true
    | PyObject.str _ => true
    | _ => false
  PyArray_FROM_OTF := PyObject.as_array

/-- A histogram of unit-width bins starting at zero on every axis: the bin counts of
its axes and the events it was filled with. -/
structure Hist where
  bins : List Nat
  events : List (List ℚ)
  deriving DecidableEq

/-- The engine on these histograms: a cell counts the events whose values round down
to its indices, and no event is dropped. -/
def engine : nhistogram Hist ℚ where
  dim := fun h => h.bins.length
  shape := fun h i => h.bins.getD i 0
  depth := fun _ => 1
  buffer := fun _ => 4096
  fill := fun h v => { h with events := h.events ++ [v] }
  value := fun h idx => Except.ok (h.events.countP (fun v => v.map Int.floor == idx))
  sum := fun h => h.events.length

/-- The value of `BOOST_HISTOGRAM_AXIS_LIMIT` used in the examples. -/
def LIMIT : Nat := 16

/-- The number of bins of an axis. -/
def bins_of : axis_type ℚ → Nat
  | axis_type.regular a => a.bins
  | axis_type.polar a => a.bins
  | axis_type.variable a => a.edges.length - 1
  | axis_type.category a => a.labels.length
  | axis_type.integer a => (a.upper - a.lower + 1).toNat

/-- The engine constructor of the examples: the constructor of the specification,
an axis being valid when it has a bin, the new histogram being empty. -/
def ctor (limit : Nat) : List (axis_type ℚ) → Except PyErr Hist :=
  nhistogram_ctor limit (fun a => decide (0 < bins_of a)) (fun axes => ⟨axes.map bins_of, []⟩)

end Example

/-! # Theorems -/

section ArrayInterface

variable {H D Obj : Type}

/-! ## The array interface -/

/-- Appending one image per element, left to right, builds the mapped list. -/
theorem foldl_append_singleton {α β : Type} (f : α → β) (l : List α) (acc : List β) :
    l.foldl (fun s i => s ++ [f i]) acc = acc ++ l.map f := by
  induction l generalizing acc with
  | nil => simp
  | cons x xs ih => simp [ih]

/-- The loop of lines 58-59 yields `shape(0)`, ..., `shape(dim() - 1)`. -/
theorem nhistogram_array_interface.shape_eq (E : nhistogram H D) (self : H) :
    nhistogram_array_interface.shape E self
      = (List.range (E.dim self)).map (fun i => PyValue.int (E.shape self i)) := by
  unfold nhistogram_array_interface.shape
  rw [foldl_append_singleton (fun i => PyValue.int (E.shape self i))]
  simp

/-- C4 (as amended): for every histogram, the `data` entry of the descriptor returned by
`nhistogram_array_interface` is the pair of the base address and the read-only flag
`false`: the storage is exported writable. -/
theorem C4_data_flag_is_false (E : nhistogram H D) (self : H) :
    (nhistogram_array_interface E self).getitem "data"
      = some (PyValue.tuple [PyValue.int (E.buffer self), PyValue.bool false]) := by
  rfl

/-- C4 (counterexample): on the example histogram with axes of 4 and 3 bins the `data`
entry is `(4096, False)`, so no descriptor entry `(address, True)` is exported. -/
theorem C4_read_only_flag_counterexample :
    (nhistogram_array_interface Example.engine ⟨[4, 3], []⟩).getitem "data"
        = some (PyValue.tuple [PyValue.int 4096, PyValue.bool false]) ∧
      ¬ ∃ addr : Int, (nhistogram_array_interface Example.engine ⟨[4, 3], []⟩).getitem "data"
        = some (PyValue.tuple [PyValue.int addr, PyValue.bool true]) := by
  refine ⟨rfl, ?_⟩
  rintro ⟨addr, h⟩
  have h2 : (nhistogram_array_interface Example.engine ⟨[4, 3], []⟩).getitem "data"
      = some (PyValue.tuple [PyValue.int 4096, PyValue.bool false]) := rfl
  rw [h2] at h
  simp at h

/-- C5: for every histogram, the descriptor returned by `nhistogram_array_interface`
has a `shape` tuple of `dim()` entries whose `i`-th entry is `shape(i)`, the `typestr`
`"<u"` followed by the decimal digits of `data().depth()` (the value of the property
`depth`), and a `data` entry whose first component is `data().buffer()`. -/
theorem C5_array_interface_descriptor (E : nhistogram H D) (self : H) :
    ∃ shape : List PyValue, ∃ flag : PyValue,
      (nhistogram_array_interface E self).getitem "shape" = some (PyValue.tuple shape) ∧
      shape.length = E.dim self ∧
      (∀ i, i < E.dim self → shape[i]? = some (PyValue.int (E.shape self i))) ∧
      (nhistogram_array_interface E self).getitem "typestr"
        = some (PyValue.str ("<u" ++ Nat.repr (nhistogram_depth E self))) ∧
      nhistogram_depth E self = E.depth self ∧
      (nhistogram_array_interface E self).getitem "data"
        = some (PyValue.tuple [PyValue.int (E.buffer self), flag]) := by
  refine ⟨nhistogram_array_interface.shape E self, PyValue.bool false, rfl, ?_, ?_, rfl, rfl, rfl⟩
  · simp [nhistogram_array_interface.shape_eq]
  · intro i hi
    simp [nhistogram_array_interface.shape_eq, hi]

end ArrayInterface

section Constructor

variable {H D Obj : Type}

/-! ## The constructor -/

/-- An argument holding an axis is pushed, whatever its class. -/
theorem nhistogram_init.loop_step (py : Python Obj D) (pa : Obj) (ax : axis_type D)
    (rest : List Obj) (axes : List (axis_type D)) (h : py.axis_object pa = some ax) :
    nhistogram_init.loop py (pa :: rest) axes = nhistogram_init.loop py rest (axes ++ [ax]) := by
  cases ax <;>
    simp [nhistogram_init.loop, extract_regular_axis, extract_polar_axis,
      extract_variable_axis, extract_category_axis, extract_integer_axis, h]

/-- An argument holding no axis ends the loop with the TypeError of line 45. -/
theorem nhistogram_init.loop_stop (py : Python Obj D) (pa : Obj)
    (rest : List Obj) (axes : List (axis_type D)) (h : py.axis_object pa = none) :
    nhistogram_init.loop py (pa :: rest) axes
      = Except.error ⟨PyExc.TypeError, "require an axis object"⟩ := by
  simp [nhistogram_init.loop, extract_regular_axis, extract_polar_axis,
    extract_variable_axis, extract_category_axis, extract_integer_axis, h]

/-- On axis objects the loop pushes the axes they hold, in argument order. -/
theorem nhistogram_init.loop_axes (py : Python Obj D) (args : List Obj)
    (found axes : List (axis_type D)) (h : args.map py.axis_object = found.map some) :
    nhistogram_init.loop py args axes = Except.ok (axes ++ found) := by
  induction args generalizing found axes with
  | nil =>
    cases found with
    | nil => simp [nhistogram_init.loop]
    | cons x xs => simp at h
  | cons pa rest ih =>
    cases found with
    | nil => simp at h
    | cons x xs =>
      simp only [List.map_cons, List.cons.injEq] at h
      rw [nhistogram_init.loop_step py pa x rest axes h.1, ih xs (axes ++ [x]) h.2]
      simp

/-- With an argument that is no axis object the loop raises the TypeError of line 45. -/
theorem nhistogram_init.loop_not_axis (py : Python Obj D) (args : List Obj)
    (axes : List (axis_type D)) (h : ∃ a ∈ args, py.axis_object a = none) :
    nhistogram_init.loop py args axes
      = Except.error ⟨PyExc.TypeError, "require an axis object"⟩ := by
  induction args generalizing axes with
  | nil => simp at h
  | cons pa rest ih =>
    cases hpa : py.axis_object pa with
    | none => exact nhistogram_init.loop_stop py pa rest axes hpa
    | some ax =>
      rw [nhistogram_init.loop_step py pa ax rest axes hpa]
      apply ih
      obtain ⟨a, ha, hnone⟩ := h
      rcases List.mem_cons.mp ha with rfl | hmem
      · rw [hpa] at hnone; cases hnone
      · exact ⟨a, hmem, hnone⟩

/-- The loop pushes one axis per argument. -/
theorem nhistogram_init.loop_length (py : Python Obj D) (args : List Obj)
    (axes out : List (axis_type D)) (h : nhistogram_init.loop py args axes = Except.ok out) :
    out.length = axes.length + args.length := by
  induction args generalizing axes with
  | nil =>
    simp [nhistogram_init.loop] at h
    simp [← h]
  | cons pa rest ih =>
    cases hpa : py.axis_object pa with
    | none => rw [nhistogram_init.loop_stop py pa rest axes hpa] at h; cases h
    | some ax =>
      rw [nhistogram_init.loop_step py pa ax rest axes hpa] at h
      rw [ih _ h]
      simp
      omega

/-- C6: in a constructor call without keyword arguments whose arguments after `self` are
instances of the five axis classes holding the axes `axes` (in this order), the engine
constructor is called once, on exactly `axes` (as many axes as arguments, each of its
class and with its parameters), and its outcome is the outcome of the call; if some
argument is no axis object the call raises the TypeError `require an axis object` and
the engine constructor is not called. -/
theorem C6_init_passes_axes_in_order (py : Python Obj D)
    (pyinit : List (axis_type D) → Except PyErr H) (args : List Obj) :
    (∀ axes : List (axis_type D), args.map py.axis_object = axes.map some →
      axes.length = args.length ∧
      nhistogram_init py pyinit args [] = ⟨[axes], Result.ofExcept (pyinit axes)⟩) ∧
    ((∃ a ∈ args, py.axis_object a = none) →
      nhistogram_init py pyinit args []
        = ⟨[], Result.raise ⟨PyExc.TypeError, "require an axis object"⟩⟩) := by
  constructor
  · intro axes h
    refine ⟨?_, ?_⟩
    · have := congrArg List.length h
      simpa using this.symm
    · simp [nhistogram_init, nhistogram_init.loop_axes py args axes [] h]
  · intro h
    simp [nhistogram_init, nhistogram_init.loop_not_axis py args [] h]

/-- C7: with the engine constructor of the specification, a constructor call with more
arguments after `self` than `BOOST_HISTOGRAM_AXIS_LIMIT` raises an error, whatever the
arguments and keyword arguments are: no histogram is constructed. -/
theorem C7_init_rejects_too_many_axes (py : Python Obj D) (LIMIT : Nat)
    (valid : axis_type D → Bool) (make : List (axis_type D) → H)
    (args : List Obj) (kwargs : List (String × Obj)) (hlong : LIMIT < args.length) :
    ∃ e : PyErr,
      (nhistogram_init py (nhistogram_ctor LIMIT valid make) args kwargs).result
        = Result.raise e := by
  unfold nhistogram_init
  split
  · exact ⟨_, rfl⟩
  · split
    · exact ⟨_, rfl⟩
    · rename_i axes h
      have hlen := nhistogram_init.loop_length py args [] axes h
      simp at hlen
      have : axes.length > LIMIT := by omega
      simp [nhistogram_ctor, this, Result.ofExcept]

end Constructor

section Fill

variable {H D Obj : Type}

/-! ## Filling -/

/-- With room in the buffer, convertible arguments are stored in argument order. -/
theorem nhistogram_fill.values_ok (py : Python Obj D) (LIMIT : Nat) (args : List Obj)
    (vals v : List D) (hconv : args.map py.extract_double = vals.map Except.ok)
    (hroom : v.length + args.length ≤ LIMIT) :
    nhistogram_fill.values py LIMIT args v = Result.ok (v ++ vals) := by
  induction args generalizing vals v with
  | nil =>
    cases vals with
    | nil => simp [nhistogram_fill.values]
    | cons x xs => simp at hconv
  | cons o rest ih =>
    cases vals with
    | nil => simp at hconv
    | cons x xs =>
      simp only [List.map_cons, List.cons.injEq] at hconv
      simp only [List.length_cons] at hroom
      have hlt : v.length < LIMIT := by omega
      simp only [nhistogram_fill.values, hconv.1, hlt, if_true]
      rw [ih xs (v ++ [x]) hconv.2 (by simp; omega)]
      simp

/-- Convertible arguments raise no error: they are all stored, or a store leaves the
buffer. -/
theorem nhistogram_fill.values_convertible (py : Python Obj D) (LIMIT : Nat)
    (args : List Obj) (vals v : List D)
    (hconv : args.map py.extract_double = vals.map Except.ok) :
    nhistogram_fill.values py LIMIT args v = Result.ok (v ++ vals) ∨
    nhistogram_fill.values py LIMIT args v = Result.undefined := by
  induction args generalizing vals v with
  | nil =>
    cases vals with
    | nil => simp [nhistogram_fill.values]
    | cons x xs => simp at hconv
  | cons o rest ih =>
    cases vals with
    | nil => simp at hconv
    | cons x xs =>
      simp only [List.map_cons, List.cons.injEq] at hconv
      by_cases hlt : v.length < LIMIT
      · simp only [nhistogram_fill.values, hconv.1, hlt, if_true]
        rcases ih xs (v ++ [x]) hconv.2 with hok | hundef
        · left
          rw [hok]
          simp
        · right
          exact hundef
      · right
        simp [nhistogram_fill.values, hconv.1, hlt]

/-- The scalar path on convertible arguments without keyword arguments. -/
theorem nhistogram_fill.scalars_of_values (py : Python Obj D) (E : nhistogram H D)
    (LIMIT : Nat) (h : H) (args : List Obj) (vals : List D)
    (hconv : args.map py.extract_double = vals.map Except.ok) :
    (args.length = E.dim h → E.dim h ≤ LIMIT →
      nhistogram_fill.scalars py E LIMIT h args [] = ⟨E.fill h vals, [vals], Result.ok ()⟩) ∧
    (args.length = E.dim h →
      (nhistogram_fill.scalars py E LIMIT h args []).result
        ≠ Result.raise ⟨PyExc.TypeError, "wrong number of arguments"⟩) ∧
    (args.length ≠ E.dim h →
      nhistogram_fill.scalars py E LIMIT h args []
        = ⟨h, [], Result.raise ⟨PyExc.TypeError, "wrong number of arguments"⟩⟩) := by
  have hlen : vals.length = args.length := by
    have := congrArg List.length hconv
    simpa using this.symm
  refine ⟨?_, ?_, ?_⟩
  · intro hk hlimit
    have hv := nhistogram_fill.values_ok py LIMIT args vals [] hconv (by simp; omega)
    simp only [List.nil_append] at hv
    have htake : List.take (E.dim h) vals = vals := by
      apply List.take_of_length_le
      omega
    simp [nhistogram_fill.scalars, hk, hv, call_fill, htake]
  · intro hk
    rcases nhistogram_fill.values_convertible py LIMIT args vals [] hconv with hv | hv
    · simp [nhistogram_fill.scalars, hk, hv]
    · simp [nhistogram_fill.scalars, hk, hv]
  · intro hk
    simp [nhistogram_fill.scalars, hk]

/-- A call that is not a single sequence argument takes the scalar path. -/
theorem nhistogram_fill.eq_scalars (py : Python Obj D) (E : nhistogram H D) (LIMIT : Nat)
    (USE_NUMPY : Bool) (h : H) (args : List Obj) (kwargs : List (String × Obj))
    (hscalar : ∀ o, args = [o] → py.PySequence_Check o = false) :
    nhistogram_fill py E LIMIT USE_NUMPY h args kwargs
      = nhistogram_fill.scalars py E LIMIT h args kwargs := by
  rcases args with _ | ⟨o, _ | ⟨o2, rest⟩⟩
  · simp [nhistogram_fill]
  · simp [nhistogram_fill, hscalar o rfl]
  · simp [nhistogram_fill]

/-- In a build with NumPy a single sequence argument that converts takes the array path. -/
theorem nhistogram_fill.eq_array (py : Python Obj D) (E : nhistogram H D) (LIMIT : Nat)
    (h : H) (o : Obj) (a : PyArrayObject D) (kwargs : List (String × Obj))
    (hseq : py.PySequence_Check o = true) (harr : py.PyArray_FROM_OTF o = some a) :
    nhistogram_fill py E LIMIT true h [o] kwargs = nhistogram_fill.array E h a := by
  simp [nhistogram_fill, hseq, harr]

/-- C1: in a call of `fill` with `k` positional values after `self`, no keyword
arguments, not the batch form (a single argument that is a sequence), each value
convertible to a double: the TypeError `wrong number of arguments` is raised exactly
when `k` differs from `dim()`, and then the engine is not called; when `k` equals `dim()`
(a histogram has at most `BOOST_HISTOGRAM_AXIS_LIMIT` axes) the engine's `fill` is
called once, on the vector of the converted values in argument order. -/
theorem C1_fill_scalars_arity (py : Python Obj D) (E : nhistogram H D) (LIMIT : Nat)
    (USE_NUMPY : Bool) (h : H) (args : List Obj) (vals : List D)
    (hconv : args.map py.extract_double = vals.map Except.ok)
    (hscalar : ∀ o, args = [o] → py.PySequence_Check o = false) :
    ((nhistogram_fill py E LIMIT USE_NUMPY h args []).result
        = Result.raise ⟨PyExc.TypeError, "wrong number of arguments"⟩
      ↔ args.length ≠ E.dim h) ∧
    (args.length ≠ E.dim h → (nhistogram_fill py E LIMIT USE_NUMPY h args []).fills = []) ∧
    (args.length = E.dim h → E.dim h ≤ LIMIT →
      nhistogram_fill py E LIMIT USE_NUMPY h args []
        = ⟨E.fill h vals, [vals], Result.ok ()⟩) := by
  rw [nhistogram_fill.eq_scalars py E LIMIT USE_NUMPY h args [] hscalar]
  obtain ⟨heq, hnot, hne⟩ := nhistogram_fill.scalars_of_values py E LIMIT h args vals hconv
  refine ⟨⟨?_, ?_⟩, ?_, heq⟩
  · intro hres hk
    exact hnot hk hres
  · intro hk
    rw [hne hk]
  · intro hk
    rw [hne hk]

/-- An error on the scalar path is raised before the engine is called. -/
theorem nhistogram_fill.scalars_raise (py : Python Obj D) (E : nhistogram H D) (LIMIT : Nat)
    (h : H) (args : List Obj) (kwargs : List (String × Obj)) (e : PyErr)
    (herr : (nhistogram_fill.scalars py E LIMIT h args kwargs).result = Result.raise e) :
    (nhistogram_fill.scalars py E LIMIT h args kwargs).fills = [] ∧
    (nhistogram_fill.scalars py E LIMIT h args kwargs).self = h := by
  by_cases hd : args.length = E.dim h
  · cases hk : kwargs.isEmpty
    · simp [nhistogram_fill.scalars, hd, hk]
    · cases hv : nhistogram_fill.values py LIMIT args []
      · simp [nhistogram_fill.scalars, hd, hk, hv] at herr
      · simp [nhistogram_fill.scalars, hd, hk, hv]
      · simp [nhistogram_fill.scalars, hd, hk, hv]
  · simp [nhistogram_fill.scalars, hd]

/-- An error on the array path is raised before the engine is called. -/
theorem nhistogram_fill.array_raise (E : nhistogram H D) (h : H) (a : PyArrayObject D)
    (e : PyErr) (herr : (nhistogram_fill.array E h a).result = Result.raise e) :
    (nhistogram_fill.array E h a).fills = [] ∧ (nhistogram_fill.array E h a).self = h := by
  rcases hdims : a.dims with _ | ⟨n, _ | ⟨m, _ | ⟨k, rest⟩⟩⟩
  · simp [nhistogram_fill.array, hdims]
  · by_cases hd : E.dim h > 1
    · simp [nhistogram_fill.array, hdims, hd]
    · simp [nhistogram_fill.array, hdims, hd, nhistogram_fill.rows] at herr
  · by_cases hd : E.dim h = m
    · simp [nhistogram_fill.array, hdims, hd, nhistogram_fill.rows] at herr
    · simp [nhistogram_fill.array, hdims, hd]
  · simp [nhistogram_fill.array, hdims]

/-- C8: a call of `fill` that raises an error (whatever the build, the arguments and the
keyword arguments are) has not called the engine's `fill`, and the histogram is the
one before the call. -/
theorem C8_failed_fill_calls_no_engine_fill (py : Python Obj D) (E : nhistogram H D)
    (LIMIT : Nat) (USE_NUMPY : Bool) (h : H) (args : List Obj)
    (kwargs : List (String × Obj)) (e : PyErr)
    (herr : (nhistogram_fill py E LIMIT USE_NUMPY h args kwargs).result = Result.raise e) :
    (nhistogram_fill py E LIMIT USE_NUMPY h args kwargs).fills = [] ∧
    (nhistogram_fill py E LIMIT USE_NUMPY h args kwargs).self = h := by
  by_cases hbatch : ∀ o, args = [o] → py.PySequence_Check o = false
  · rw [nhistogram_fill.eq_scalars py E LIMIT USE_NUMPY h args kwargs hbatch] at herr ⊢
    exact nhistogram_fill.scalars_raise py E LIMIT h args kwargs e herr
  · push_neg at hbatch
    obtain ⟨o, rfl, hseq⟩ := hbatch
    simp only [Bool.not_eq_false] at hseq
    cases USE_NUMPY
    · have hs : nhistogram_fill py E LIMIT false h [o] kwargs
          = nhistogram_fill.scalars py E LIMIT h [o] kwargs := by
        simp [nhistogram_fill]
      rw [hs] at herr ⊢
      exact nhistogram_fill.scalars_raise py E LIMIT h [o] kwargs e herr
    · cases harr : py.PyArray_FROM_OTF o with
      | none => simp [nhistogram_fill, hseq, harr]
      | some a =>
        rw [nhistogram_fill.eq_array py E LIMIT h o a kwargs hseq harr] at herr ⊢
        exact nhistogram_fill.array_raise E h a e herr

end Fill

section FillPaths

variable {H D Obj : Type}

/-- What the switch of lines 86-103 accepts: an array of one extent on a histogram of at
most one axis, or an array of two extents whose second extent is `dim()`; every other
array raises a ValueError. -/
theorem nhistogram_fill.array_accepted_iff (E : nhistogram H D) (h : H)
    (a : PyArrayObject D) :
    ((nhistogram_fill.array E h a).result = Result.ok ()
      ↔ (∃ n, a.dims = [n] ∧ E.dim h ≤ 1) ∨ (∃ n, a.dims = [n, E.dim h])) ∧
    ((nhistogram_fill.array E h a).result ≠ Result.ok () →
      ∃ msg, (nhistogram_fill.array E h a).result = Result.raise ⟨PyExc.ValueError, msg⟩) := by
  rcases hdims : a.dims with _ | ⟨n, _ | ⟨m, _ | ⟨k, rest⟩⟩⟩
  · simp [nhistogram_fill.array, hdims]
  · by_cases hd : E.dim h > 1
    · simp [nhistogram_fill.array, hdims, hd]
    · simp [nhistogram_fill.array, hdims, hd, nhistogram_fill.rows]
      omega
  · by_cases hd : E.dim h = m
    · simp [nhistogram_fill.array, hdims, hd, nhistogram_fill.rows]
    · simp [nhistogram_fill.array, hdims, hd]
      exact fun hm => hd hm.symm
  · simp [nhistogram_fill.array, hdims]

/-- On the scalar path of lines 116-131 a call with keyword arguments raises a TypeError
and calls no engine `fill`. -/
theorem nhistogram_fill.scalars_keywords (py : Python Obj D) (E : nhistogram H D)
    (LIMIT : Nat) (h : H) (args : List Obj) (kwargs : List (String × Obj))
    (hkw : kwargs ≠ []) :
    ∃ msg, nhistogram_fill.scalars py E LIMIT h args kwargs
      = ⟨h, [], Result.raise ⟨PyExc.TypeError, msg⟩⟩ := by
  have hk : kwargs.isEmpty = false := by
    cases kwargs with
    | nil => exact absurd rfl hkw
    | cons _ _ => rfl
  by_cases hd : args.length = E.dim h
  · exact ⟨"no keyword arguments allowed", by simp [nhistogram_fill.scalars, hd, hk]⟩
  · exact ⟨"wrong number of arguments", by simp [nhistogram_fill.scalars, hd]⟩

end FillPaths

section BatchFill

variable {H D Obj : Type}

/-! ## Batch filling -/

end BatchFill

section Getitem

variable {H D Obj : Type}

/-! ## Indexed reading -/

end Getitem

section Instances

open Example

/-- C1 (instance): `h.fill(0.5, 2)` on the example histogram with axes of 4 and 3 bins
calls the engine once, on `[0.5, 2]`. -/
theorem C1_fill_scalars_arity_witness :
    nhistogram_fill python engine LIMIT true ⟨[4, 3], []⟩
        [PyObject.float (1 / 2), PyObject.int 2] []
      = ⟨engine.fill ⟨[4, 3], []⟩ [1 / 2, ((2 : Int) : ℚ)], [[1 / 2, ((2 : Int) : ℚ)]],
          Result.ok ()⟩ :=
  (C1_fill_scalars_arity python engine LIMIT true ⟨[4, 3], []⟩
    [PyObject.float (1 / 2), PyObject.int 2] [1 / 2, ((2 : Int) : ℚ)] rfl
    (fun _ hargs => by cases hargs)).2.2 rfl (by decide)

/-- C2 (failing input): in a build with NumPy, on the example histogram without axes
(the one `nhistogram()` constructs) the call `h.fill([0.5])` is a batch call whose array
has the single extent 1; it is accepted, and the engine's `fill` is called once, on the
empty vector. -/
theorem C2_one_extent_array_on_zero_axes_accepted :
    nhistogram_init python (ctor LIMIT) [] [] = ⟨[[]], Result.ok ⟨[], []⟩⟩ ∧
    engine.dim ⟨[], []⟩ = 0 ∧
    python.PySequence_Check (PyObject.list [PyObject.float (1 / 2)]) = true ∧
    python.PyArray_FROM_OTF (PyObject.list [PyObject.float (1 / 2)])
      = some ⟨[1], [1 / 2]⟩ ∧
    nhistogram_fill python engine LIMIT true ⟨[], []⟩
        [PyObject.list [PyObject.float (1 / 2)]] []
      = ⟨⟨[], [[]]⟩, [[]], Result.ok ()⟩ :=
  ⟨rfl, rfl, rfl, rfl, rfl⟩

/-- C6 (instance): `nhistogram(regular_axis, integer_axis)` hands the two axes to the
engine constructor, in this order. -/
theorem C6_init_passes_axes_in_order_witness :
    nhistogram_init python (ctor LIMIT)
        [PyObject.axis (axis_type.regular ⟨4, 0, 1⟩), PyObject.axis (axis_type.integer ⟨0, 3⟩)] []
      = ⟨[[axis_type.regular ⟨4, 0, 1⟩, axis_type.integer ⟨0, 3⟩]],
          Result.ofExcept (ctor LIMIT [axis_type.regular ⟨4, 0, 1⟩, axis_type.integer ⟨0, 3⟩])⟩ :=
  ((C6_init_passes_axes_in_order python (ctor LIMIT)
      [PyObject.axis (axis_type.regular ⟨4, 0, 1⟩), PyObject.axis (axis_type.integer ⟨0, 3⟩)]).1
    [axis_type.regular ⟨4, 0, 1⟩, axis_type.integer ⟨0, 3⟩] rfl).2

/-- C7 (instance): with a limit of 2 axes, a constructor call with three axes fails. -/
theorem C7_init_rejects_too_many_axes_witness :
    2 < [PyObject.axis (axis_type.integer ⟨0, 3⟩), PyObject.axis (axis_type.integer ⟨0, 3⟩),
          PyObject.axis (axis_type.integer ⟨0, 3⟩)].length ∧
    ∃ e : PyErr,
      (nhistogram_init python
        (nhistogram_ctor 2 (fun a => decide (0 < bins_of a))
          (fun axes => (⟨axes.map bins_of, []⟩ : Hist)))
        [PyObject.axis (axis_type.integer ⟨0, 3⟩), PyObject.axis (axis_type.integer ⟨0, 3⟩),
          PyObject.axis (axis_type.integer ⟨0, 3⟩)] []).result = Result.raise e :=
  ⟨by decide,
    C7_init_rejects_too_many_axes python 2 (fun a => decide (0 < bins_of a))
      (fun axes => (⟨axes.map bins_of, []⟩ : Hist))
      [PyObject.axis (axis_type.integer ⟨0, 3⟩), PyObject.axis (axis_type.integer ⟨0, 3⟩),
        PyObject.axis (axis_type.integer ⟨0, 3⟩)] [] (by decide)⟩

/-- C8 (instance): `h.fill(0.5, 0.5)` on the example histogram with one axis raises the
arity error and calls no engine `fill`. -/
theorem C8_failed_fill_calls_no_engine_fill_witness :
    (nhistogram_fill python engine LIMIT true ⟨[4], []⟩
        [PyObject.float (1 / 2), PyObject.float (1 / 2)] []).result
      = Result.raise ⟨PyExc.TypeError, "wrong number of arguments"⟩ ∧
    (nhistogram_fill python engine LIMIT true ⟨[4], []⟩
        [PyObject.float (1 / 2), PyObject.float (1 / 2)] []).fills = [] ∧
    (nhistogram_fill python engine LIMIT true ⟨[4], []⟩
        [PyObject.float (1 / 2), PyObject.float (1 / 2)] []).self = ⟨[4], []⟩ :=
  ⟨rfl,
    C8_failed_fill_calls_no_engine_fill python engine LIMIT true ⟨[4], []⟩
      [PyObject.float (1 / 2), PyObject.float (1 / 2)] []
      ⟨PyExc.TypeError, "wrong number of arguments"⟩ rfl⟩

/-- C9 (failing input): in a build with NumPy, on the example histogram with one axis
the call `h.fill([0.5], weight=2)` raises nothing: the engine's `fill` is called once, on
`[0.5]`, and the call returns normally. -/
theorem C9_keywords_accepted_in_batch_form :
    nhistogram_fill python engine LIMIT true ⟨[4], []⟩
        [PyObject.list [PyObject.float (1 / 2)]] [("weight", PyObject.int 2)]
      = ⟨⟨[4], [[1 / 2]]⟩, [[1 / 2]], Result.ok ()⟩ :=
  rfl

end Instances

end boost.histogram
